import Mathlib

/-!
Shallow embedding of the email-proxy service (`src/main.py`) and proofs of
the specification claims about it.

The embedding models:
* the request data model (`SMTPAuth`, `SMTPConfig`, `ProxyConfig`, `EmailRequest`)
  exactly as the pydantic models declare them;
* the network as an oracle (`NetWorld`) fixing the outcome of every
  fallible network operation (proxy-IP probe, SMTP connect, EHLO, STARTTLS,
  NOOP, LOGIN, SENDMAIL, QUIT) plus the generated uuid;
* the orchestration endpoint `send_email` as a pure function of the oracle
  and the request, returning the JSON response together with the ordered
  trace of SMTP transport actions it performed;
* the `proxy_context` context manager as a transformer on the process-wide
  socket state (`socket.socket` / socks default proxy).
-/

/-- `auth: { user, password }` of the request body. -/
structure SMTPAuth where
  user : String
  password : String
deriving DecidableEq, Repr

/-- `smtpConfig` of the request body. -/
structure SMTPConfig where
  host : String
  port : Nat
  secure : Bool
  auth : SMTPAuth
deriving DecidableEq, Repr

/-- `proxyConfig` of the request body. -/
structure ProxyConfig where
  host : String
  port : Nat
  username : Option String
  password : Option String
deriving DecidableEq, Repr

/-- The validated `EmailRequest` body of `POST /send-email`. -/
structure EmailRequest where
  smtpConfig : SMTPConfig
  proxyConfig : Option ProxyConfig
  senderName : String
  senderEmail : String
  toEmail : String
  subject : String
  code : String
  originalIp : Option String
deriving DecidableEq, Repr

/-- Outcome of one fallible network operation: it either succeeds or raises
an exception carrying a message string. -/
inductive StageResult where
  | ok
  | err (msg : String)
deriving DecidableEq, Repr

/-- Outcome of `get_proxy_ip`: a `success:True` dict with the observed IP and
the methods used, a `success:False` dict with an error message, or a raised
exception (caught by the `except` at the call site). -/
inductive ProxyIpResult where
  | ok (ip : String) (methods : List String)
  | failed (err : String)
  | raised (err : String)
deriving DecidableEq, Repr

/-- Oracle fixing what every network operation of one job does, plus the
uuid drawn for the Message-ID. -/
structure NetWorld where
  proxyIp : ProxyIpResult
  connect : StageResult
  ehlo1 : StageResult
  starttls : StageResult
  ehlo2 : StageResult
  noop : StageResult
  login : StageResult
  sendmail : StageResult
  quit : StageResult
  uuid : String
deriving DecidableEq, Repr

/-- The mutable `log_entry` dict: every key the handler may set, absent keys
as `none`.  The always-present `proxyConfig` sub-dict is flattened into the
three `proxyCfg*` fields. -/
structure LogEntry where
  timestamp : String
  originalIp : String
  beforeProxyIp : String
  proxyCfgHost : Option String
  proxyCfgPort : Option Nat
  proxyCfgHasAuth : Bool
  reqToEmail : String
  reqSenderEmail : String
  reqSubject : String
  afterProxyIp : Option String
  proxyMethodsUsed : Option (List String)
  proxyUsed : Option Bool
  connectionType : Option String
  proxyError : Option String
  fallbackToDirect : Option Bool
  noProxyConfigured : Option Bool
  connectionVerified : Option Bool
  verifyError : Option String
  smtpSuccess : Option Bool
  smtpError : Option String
  finalOutcome : Option String
deriving DecidableEq, Repr

/-- The JSON body returned by the handler. -/
structure Response where
  success : Bool
  messageId : Option String
  error : Option String
  logs : LogEntry
deriving DecidableEq, Repr

/-- One SMTP transport action performed by the handler, in order.  The
connect action records the proxy configuration handed to
`create_smtp_connection` and the `timeout=20` passed to `smtplib.SMTP`. -/
inductive SmtpAction where
  | connectA (proxy : Option ProxyConfig) (timeoutSecs : Nat)
  | ehloA
  | starttlsA
  | noopA
  | loginA
  | sendmailA
  | quitA
deriving DecidableEq, Repr

/-- Python truthiness of an optional string (`None` and `""` are falsy). -/
def pyTruthyStr : Option String → Bool
  | none => false
  | some s => s ≠ ""

/-- The `log_entry` dict as initialized at the top of `send_email`
(lines 176–190): request echo plus the `proxyConfig` sub-dict built with
`getattr(req.proxyConfig, ..., None)`. -/
def initialLog (req : EmailRequest) (clientHost ts : String) : LogEntry where
  timestamp := ts
  originalIp := if pyTruthyStr req.originalIp then req.originalIp.getD clientHost
                else clientHost
  beforeProxyIp := clientHost
  proxyCfgHost := req.proxyConfig.map (fun p => p.host)
  proxyCfgPort := req.proxyConfig.map (fun p => p.port)
  proxyCfgHasAuth := match req.proxyConfig with
    | none => false
    | some p => pyTruthyStr p.username && pyTruthyStr p.password
  reqToEmail := req.toEmail
  reqSenderEmail := req.senderEmail
  reqSubject := req.subject
  afterProxyIp := none
  proxyMethodsUsed := none
  proxyUsed := none
  connectionType := none
  proxyError := none
  fallbackToDirect := none
  noProxyConfigured := none
  connectionVerified := none
  verifyError := none
  smtpSuccess := none
  smtpError := none
  finalOutcome := none

/-- Lines 192–216: the proxy-resolution phase.  Runs `get_proxy_ip` only
when `req.proxyConfig and req.proxyConfig.host` is truthy; returns the
updated log and the `use_proxy` flag. -/
def proxyPhase (w : NetWorld) (req : EmailRequest) (log : LogEntry) :
    LogEntry × Bool :=
  match req.proxyConfig with
  | some p =>
    if p.host ≠ "" then
      match w.proxyIp with
      | .ok ip methods =>
        ({ log with afterProxyIp := some ip, proxyMethodsUsed := some methods,
                    proxyUsed := some true, connectionType := some "proxy" }, true)
      | .failed e =>
        ({ log with proxyError := some e, fallbackToDirect := some true,
                    connectionType := some "direct" }, false)
      | .raised e =>
        ({ log with proxyError := some e, fallbackToDirect := some true,
                    connectionType := some "direct" }, false)
    else
      ({ log with noProxyConfigured := some true,
                  connectionType := some "direct" }, false)
  | none =>
    ({ log with noProxyConfigured := some true,
                connectionType := some "direct" }, false)

/-- Line 218: `message_id = f"<{uuid.uuid4()}@{req.smtpConfig.host}>"`. -/
def messageIdOf (w : NetWorld) (req : EmailRequest) : String :=
  "<" ++ w.uuid ++ "@" ++ req.smtpConfig.host ++ ">"

/-- The outer `except` (lines 270–279): any exception from the session is
converted into a `success:false` JSON body with the error text and the log
collected so far. -/
def errorResponse (log : LogEntry) (e : String) : Response where
  success := false
  messageId := none
  error := some e
  logs := { log with smtpSuccess := some false, smtpError := some e,
                     finalOutcome := some "error" }

/-- Lines 233–279: the SMTP session under `try/finally/except`.  `connProxy`
is the argument passed to `create_smtp_connection` (the proxy config of the job
when `use_proxy`, else `None`).  Returns the response together with the
ordered trace of transport actions; `QUIT` is attempted in the `finally`
block on every path on which the server object was created, and its own
failure is swallowed. -/
def smtpPhase (w : NetWorld) (req : EmailRequest) (log : LogEntry)
    (mid : String) (connProxy : Option ProxyConfig) :
    Response × List SmtpAction :=
  match w.connect with
  | .err e => (errorResponse log e, [.connectA connProxy 20])
  | .ok =>
    match w.ehlo1 with
    | .err e => (errorResponse log e, [.connectA connProxy 20, .ehloA, .quitA])
    | .ok =>
      let tls : Except (List SmtpAction × String) (List SmtpAction) :=
        if req.smtpConfig.secure && req.smtpConfig.port == 587 then
          match w.starttls with
          | .err e => .error ([.connectA connProxy 20, .ehloA, .starttlsA], e)
          | .ok =>
            match w.ehlo2 with
            | .err e =>
              .error ([.connectA connProxy 20, .ehloA, .starttlsA, .ehloA], e)
            | .ok => .ok [.connectA connProxy 20, .ehloA, .starttlsA, .ehloA]
        else .ok [.connectA connProxy 20, .ehloA]
      match tls with
      | .error (acts, e) => (errorResponse log e, acts ++ [.quitA])
      | .ok acts =>
        let log2 : LogEntry :=
          match w.noop with
          | .ok => { log with connectionVerified := some true }
          | .err v => { log with connectionVerified := some false,
                                 verifyError := some v }
        match w.login with
        | .err e => (errorResponse log2 e, acts ++ [.noopA, .loginA, .quitA])
        | .ok =>
          match w.sendmail with
          | .err e =>
            (errorResponse log2 e,
             acts ++ [.noopA, .loginA, .sendmailA, .quitA])
          | .ok =>
            ({ success := true, messageId := some mid, error := none,
               logs := { log2 with finalOutcome := some "success",
                                   smtpSuccess := some true } },
             acts ++ [.noopA, .loginA, .sendmailA, .quitA])

/-- The full `POST /send-email` handler (lines 173–279) as a pure function
of the network oracle, the request, the framework-supplied client host and
the timestamp. -/
def send_email (w : NetWorld) (req : EmailRequest) (clientHost ts : String) :
    Response × List SmtpAction :=
  let lu := proxyPhase w req (initialLog req clientHost ts)
  smtpPhase w req lu.1 (messageIdOf w req)
    (if lu.2 then req.proxyConfig else none)

/-! ### Process-wide socket state and `proxy_context` -/

/-- Which function the process-wide name `socket.socket` currently denotes. -/
inductive SocketFactory where
  | plain
  | socksFactory
deriving DecidableEq, Repr

/-- The process-wide mutable state touched by `proxy_context`: the socks
default proxy and the `socket.socket` binding. -/
structure GlobalSocketState where
  defaultProxy : Option ProxyConfig
  socketFactory : SocketFactory
deriving DecidableEq, Repr

/-- `proxy_context` entry (lines 69–82): with a proxy config it sets the
process-wide default proxy and rebinds `socket.socket` to the socks socket;
with `None` it leaves the state untouched.  The body of the `with` block
runs under the returned state. -/
def proxy_context_enter (g : GlobalSocketState) (pc : Option ProxyConfig) :
    GlobalSocketState :=
  match pc with
  | some p => { defaultProxy := some p, socketFactory := .socksFactory }
  | none => g

/-- `proxy_context` exit (lines 83–86, the `finally`): runs on every exit,
normal or exceptional; clears the default proxy to `None` and restores
`socket.socket` to the value captured on entry. -/
def proxy_context_exit (g : GlobalSocketState) : GlobalSocketState :=
  { defaultProxy := none, socketFactory := g.socketFactory }

/-- A full `with proxy_context(pc): body` execution: the body runs under the
entered state and may itself alter the process-wide state; the `finally`
then overwrites the default proxy with `None` and `socket.socket` with the
value captured on entry, whether the body returned or raised. -/
def proxy_context_run (g : GlobalSocketState) (pc : Option ProxyConfig)
    (body : GlobalSocketState → GlobalSocketState) : GlobalSocketState :=
  let gBody := body (proxy_context_enter g pc)
  { gBody with defaultProxy := none, socketFactory := g.socketFactory }

/-! ### Basic equations and frame lemmas -/

/-- Unfolding of `send_email` into its two phases. -/
theorem send_email_eq (w : NetWorld) (req : EmailRequest) (ch ts : String) :
    send_email w req ch ts =
      smtpPhase w req (proxyPhase w req (initialLog req ch ts)).1
        (messageIdOf w req)
        (if (proxyPhase w req (initialLog req ch ts)).2 then req.proxyConfig
         else none) := rfl

/-- With no proxy in the request, the proxy phase only records
`noProxyConfigured` and a direct connection type. -/
theorem proxyPhase_none (w : NetWorld) (req : EmailRequest) (log : LogEntry)
    (h : req.proxyConfig = none) :
    proxyPhase w req log =
      ({ log with noProxyConfigured := some true,
                  connectionType := some "direct" }, false) := by
  simp [proxyPhase, h]

/-- A proxy config with an empty host is falsy in Python, so the proxy phase
takes the no-proxy branch. -/
theorem proxyPhase_emptyHost (w : NetWorld) (req : EmailRequest)
    (log : LogEntry) (p : ProxyConfig) (h : req.proxyConfig = some p)
    (hh : p.host = "") :
    proxyPhase w req log =
      ({ log with noProxyConfigured := some true,
                  connectionType := some "direct" }, false) := by
  simp [proxyPhase, h, hh]

/-- A failing `get_proxy_ip` (a `success:False` dict) makes the proxy phase
record the error and fall back to direct. -/
theorem proxyPhase_failed (w : NetWorld) (req : EmailRequest) (log : LogEntry)
    (p : ProxyConfig) (e : String) (h : req.proxyConfig = some p)
    (hh : p.host ≠ "") (hf : w.proxyIp = .failed e) :
    proxyPhase w req log =
      ({ log with proxyError := some e, fallbackToDirect := some true,
                  connectionType := some "direct" }, false) := by
  simp [proxyPhase, h, hh, hf]

/-- An exception raised inside `get_proxy_ip` orchestration is caught at
lines 208–212 with the same fallback effect. -/
theorem proxyPhase_raised (w : NetWorld) (req : EmailRequest) (log : LogEntry)
    (p : ProxyConfig) (e : String) (h : req.proxyConfig = some p)
    (hh : p.host ≠ "") (hf : w.proxyIp = .raised e) :
    proxyPhase w req log =
      ({ log with proxyError := some e, fallbackToDirect := some true,
                  connectionType := some "direct" }, false) := by
  simp [proxyPhase, h, hh, hf]

/-- Every run of the SMTP phase yields either success or a well-formed
error response whose error text is mirrored into the log. -/
theorem smtpPhase_wf (w : NetWorld) (req : EmailRequest) (log : LogEntry)
    (mid : String) (cp : Option ProxyConfig) :
    (smtpPhase w req log mid cp).1.success = true ∨
    ∃ e, (smtpPhase w req log mid cp).1.error = some e ∧
      (smtpPhase w req log mid cp).1.logs.smtpError = some e ∧
      (smtpPhase w req log mid cp).1.logs.smtpSuccess = some false ∧
      (smtpPhase w req log mid cp).1.logs.finalOutcome = some "error" := by
  unfold smtpPhase errorResponse
  rcases w with ⟨pip, c, e1, st, e2, np, lg, sm, q, u⟩
  cases hsec : req.smtpConfig.secure <;> by_cases hp : req.smtpConfig.port = 587 <;>
  cases c <;> cases e1 <;> cases st <;> cases e2 <;> cases np <;> cases lg <;> cases sm <;>
    simp_all

/-- The SMTP phase never touches the proxy-related log fields: the trail
collected by the proxy phase is returned verbatim. -/
theorem smtpPhase_frame (w : NetWorld) (req : EmailRequest) (log : LogEntry)
    (mid : String) (cp : Option ProxyConfig) :
    (smtpPhase w req log mid cp).1.logs.connectionType = log.connectionType ∧
    (smtpPhase w req log mid cp).1.logs.proxyError = log.proxyError ∧
    (smtpPhase w req log mid cp).1.logs.fallbackToDirect = log.fallbackToDirect ∧
    (smtpPhase w req log mid cp).1.logs.noProxyConfigured = log.noProxyConfigured ∧
    (smtpPhase w req log mid cp).1.logs.proxyUsed = log.proxyUsed ∧
    (smtpPhase w req log mid cp).1.logs.afterProxyIp = log.afterProxyIp ∧
    (smtpPhase w req log mid cp).1.logs.proxyMethodsUsed = log.proxyMethodsUsed ∧
    (smtpPhase w req log mid cp).1.logs.proxyCfgHost = log.proxyCfgHost ∧
    (smtpPhase w req log mid cp).1.logs.proxyCfgPort = log.proxyCfgPort ∧
    (smtpPhase w req log mid cp).1.logs.proxyCfgHasAuth = log.proxyCfgHasAuth := by
  unfold smtpPhase errorResponse
  rcases w with ⟨pip, c, e1, st, e2, np, lg, sm, q, u⟩
  cases hsec : req.smtpConfig.secure <;> by_cases hp : req.smtpConfig.port = 587 <;>
  cases c <;> cases e1 <;> cases st <;> cases e2 <;> cases np <;> cases lg <;> cases sm <;>
    simp_all

/-- Every run starts with exactly one connection attempt, carrying the
proxy argument handed to `create_smtp_connection` and the 20-second
`timeout=` of the `smtplib.SMTP` constructor. -/
theorem smtpPhase_head (w : NetWorld) (req : EmailRequest) (log : LogEntry)
    (mid : String) (cp : Option ProxyConfig) :
    (smtpPhase w req log mid cp).2.head? = some (.connectA cp 20) := by
  unfold smtpPhase errorResponse
  rcases w with ⟨pip, c, e1, st, e2, np, lg, sm, q, u⟩
  cases hsec : req.smtpConfig.secure <;> by_cases hp : req.smtpConfig.port = 587 <;>
  cases c <;> cases e1 <;> cases st <;> cases e2 <;> cases np <;> cases lg <;> cases sm <;>
    simp_all

/-- The response carries the message id exactly when it reports success. -/
theorem smtpPhase_messageId (w : NetWorld) (req : EmailRequest) (log : LogEntry)
    (mid : String) (cp : Option ProxyConfig) :
    (smtpPhase w req log mid cp).1.messageId =
      (if (smtpPhase w req log mid cp).1.success = true then some mid
       else none) := by
  unfold smtpPhase errorResponse
  rcases w with ⟨pip, c, e1, st, e2, np, lg, sm, q, u⟩
  cases hsec : req.smtpConfig.secure <;> by_cases hp : req.smtpConfig.port = 587 <;>
  cases c <;> cases e1 <;> cases st <;> cases e2 <;> cases np <;> cases lg <;> cases sm <;>
    simp_all

/-- The outcome of `server.quit()` is never consulted: its failure in the
`finally` block is swallowed (lines 266–269). -/
theorem smtpPhase_quit_indep (w : NetWorld) (req : EmailRequest)
    (log : LogEntry) (mid : String) (cp : Option ProxyConfig)
    (q : StageResult) :
    smtpPhase { w with quit := q } req log mid cp =
      smtpPhase w req log mid cp := rfl

/-- The SMTP phase never consults the proxy-IP probe outcome. -/
theorem smtpPhase_proxyIp_indep (w : NetWorld) (req : EmailRequest)
    (log : LogEntry) (mid : String) (cp : Option ProxyConfig)
    (pr : ProxyIpResult) :
    smtpPhase { w with proxyIp := pr } req log mid cp =
      smtpPhase w req log mid cp := rfl

/-- Once the server object exists (the connect succeeded), `QUIT` is in the
action trace of every exit path. -/
theorem smtpPhase_quit_mem (w : NetWorld) (req : EmailRequest)
    (log : LogEntry) (mid : String) (cp : Option ProxyConfig)
    (hc : w.connect = .ok) :
    SmtpAction.quitA ∈ (smtpPhase w req log mid cp).2 := by
  unfold smtpPhase errorResponse
  rcases w with ⟨pip, c, e1, st, e2, np, lg, sm, q, u⟩
  cases hsec : req.smtpConfig.secure <;> by_cases hp : req.smtpConfig.port = 587 <;>
  cases c <;> cases e1 <;> cases st <;> cases e2 <;> cases np <;> cases lg <;> cases sm <;>
    simp_all

/-- A failed login aborts the job: error response with the rejection text,
no message id, and no SENDMAIL in the trace. -/
theorem smtpPhase_auth_abort (w : NetWorld) (req : EmailRequest)
    (log : LogEntry) (mid : String) (cp : Option ProxyConfig) (e : String)
    (hc : w.connect = .ok) (h1 : w.ehlo1 = .ok)
    (htls : req.smtpConfig.secure = true → req.smtpConfig.port = 587 →
      w.starttls = .ok ∧ w.ehlo2 = .ok)
    (hl : w.login = .err e) :
    (smtpPhase w req log mid cp).1.success = false ∧
    (smtpPhase w req log mid cp).1.error = some e ∧
    (smtpPhase w req log mid cp).1.logs.smtpError = some e ∧
    (smtpPhase w req log mid cp).1.messageId = none ∧
    SmtpAction.sendmailA ∉ (smtpPhase w req log mid cp).2 := by
  unfold smtpPhase errorResponse
  rcases w with ⟨pip, c, e1, st, e2, np, lg, sm, q, u⟩
  cases hsec : req.smtpConfig.secure <;> by_cases hp : req.smtpConfig.port = 587 <;>
  cases c <;> cases e1 <;> cases st <;> cases e2 <;> cases np <;> cases lg <;> cases sm <;>
    simp_all

/-- A failed NOOP is recorded as `connectionVerified=false` with the error
detail, and the session still proceeds to LOGIN. -/
theorem smtpPhase_verify_nonfatal (w : NetWorld) (req : EmailRequest)
    (log : LogEntry) (mid : String) (cp : Option ProxyConfig) (v : String)
    (hc : w.connect = .ok) (h1 : w.ehlo1 = .ok)
    (htls : req.smtpConfig.secure = true → req.smtpConfig.port = 587 →
      w.starttls = .ok ∧ w.ehlo2 = .ok)
    (hn : w.noop = .err v) :
    (smtpPhase w req log mid cp).1.logs.connectionVerified = some false ∧
    (smtpPhase w req log mid cp).1.logs.verifyError = some v ∧
    SmtpAction.loginA ∈ (smtpPhase w req log mid cp).2 := by
  unfold smtpPhase errorResponse
  rcases w with ⟨pip, c, e1, st, e2, np, lg, sm, q, u⟩
  cases hsec : req.smtpConfig.secure <;> by_cases hp : req.smtpConfig.port = 587 <;>
  cases c <;> cases e1 <;> cases st <;> cases e2 <;> cases np <;> cases lg <;> cases sm <;>
    simp_all

/-- On a failed connect the server object is never created: the trace is the
single connect attempt and the outer handler produces the error response. -/
theorem smtpPhase_connect_err (w : NetWorld) (req : EmailRequest)
    (log : LogEntry) (mid : String) (cp : Option ProxyConfig) (e : String)
    (hc : w.connect = .err e) :
    smtpPhase w req log mid cp =
      (errorResponse log e, [.connectA cp 20]) := by
  unfold smtpPhase
  rw [hc]

/-! ### Concrete sample inputs for witnesses and counterexamples -/

/-- A sample SMTP target (STARTTLS case: secure and port 587). -/
def smtpEx : SMTPConfig :=
  { host := "smtp.example.com", port := 587, secure := true,
    auth := { user := "user", password := "pw" } }

/-- A sample SOCKS5 proxy config with credentials. -/
def proxyEx : ProxyConfig :=
  { host := "10.0.0.1", port := 1080, username := some "pu",
    password := some "pp" }

/-- A request with no proxy configured. -/
def reqNoProxy : EmailRequest :=
  { smtpConfig := smtpEx, proxyConfig := none, senderName := "Acme",
    senderEmail := "noreply@acme.example", toEmail := "to@dest.example",
    subject := "Your code", code := "123456", originalIp := none }

/-- The same request with the sample proxy configured. -/
def reqWithProxy : EmailRequest := { reqNoProxy with proxyConfig := some proxyEx }

/-- The same request with a proxy whose host is the empty string. -/
def reqEmptyProxyHost : EmailRequest :=
  { reqNoProxy with proxyConfig := some { proxyEx with host := "" } }

/-- A world in which every network operation succeeds. -/
def wAllOk : NetWorld :=
  { proxyIp := .ok "203.0.113.5" ["smtp_peername"], connect := .ok,
    ehlo1 := .ok, starttls := .ok, ehlo2 := .ok, noop := .ok, login := .ok,
    sendmail := .ok, quit := .ok, uuid := "0f7b3a1c" }

/-- A world in which the SMTP connect times out. -/
def wTimedOut : NetWorld := { wAllOk with connect := .err "timed out" }

/-- A world in which the proxy-IP probe reports failure. -/
def wProxyFail : NetWorld :=
  { wAllOk with
    proxyIp := .failed "Could not determine proxy IP using any method" }

/-- A world in which LOGIN is rejected. -/
def wAuthFail : NetWorld :=
  { wAllOk with login := .err "535 authentication failed" }

/-- A world in which the NOOP liveness probe fails. -/
def wNoopFail : NetWorld := { wAllOk with noop := .err "451 noop rejected" }

/-! ### Claim theorems -/

/-- C1: every failure raised during orchestration is caught at the
orchestration boundary and converted into a well-formed result with
`success:false`, the error description mirrored into the trail, and the
diagnostic trail collected up to the failure point (the proxy-phase fields
are returned verbatim); no fault escapes the handler. -/
theorem send_email_failures_contained (w : NetWorld) (req : EmailRequest)
    (ch ts : String) :
    ((send_email w req ch ts).1.success = true ∨
      ∃ e, (send_email w req ch ts).1.error = some e ∧
        (send_email w req ch ts).1.logs.smtpError = some e ∧
        (send_email w req ch ts).1.logs.smtpSuccess = some false ∧
        (send_email w req ch ts).1.logs.finalOutcome = some "error") ∧
    (send_email w req ch ts).1.logs.connectionType =
      (proxyPhase w req (initialLog req ch ts)).1.connectionType ∧
    (send_email w req ch ts).1.logs.proxyError =
      (proxyPhase w req (initialLog req ch ts)).1.proxyError := by
  rw [send_email_eq]
  refine ⟨smtpPhase_wf _ _ _ _ _, (smtpPhase_frame _ _ _ _ _).1,
    (smtpPhase_frame _ _ _ _ _).2.1⟩

/-- C2 counterexample: a connect that times out is not reported as a
distinct DeadlineExceeded outcome — the handler returns the ordinary
`success:false` JSON whose error is exactly the in-flight partial error
text ("timed out"), refuting the claimed overall-deadline behavior at this
concrete input.  The `Response` produced at lines 275–279 has no status or
outcome kind beyond the error string, and `send_email` contains no overall
deadline at all. -/
theorem send_email_deadline_counterexample :
    (send_email wTimedOut reqNoProxy "198.51.100.7" "t0").1.success = false ∧
    (send_email wTimedOut reqNoProxy "198.51.100.7" "t0").1.error =
      some "timed out" ∧
    (send_email wTimedOut reqNoProxy "198.51.100.7" "t0").1.logs.smtpError =
      some "timed out" := by
  refine ⟨rfl, rfl, rfl⟩

/-- C2 (amended): the code imposes no overall deadline; the only timeout is
the per-connection 20-second budget of the `smtplib.SMTP` constructor, and
a timeout surfaces like any other exception — the job returns a normal
`success:false` result carrying the in-flight error text, with no distinct
DeadlineExceeded outcome. -/
theorem send_email_timeout_passthrough (w : NetWorld) (req : EmailRequest)
    (ch ts e : String) (h : w.connect = .err e) :
    (send_email w req ch ts).1.success = false ∧
    (send_email w req ch ts).1.error = some e ∧
    (send_email w req ch ts).1.logs.smtpError = some e ∧
    ∃ cp, (send_email w req ch ts).2 = [SmtpAction.connectA cp 20] := by
  rw [send_email_eq, smtpPhase_connect_err _ _ _ _ _ _ h]
  exact ⟨rfl, rfl, rfl, _, rfl⟩

/-- C2 witness: the amended theorem applied at a concrete timed-out world. -/
theorem send_email_timeout_passthrough_witness :
    (send_email wTimedOut reqWithProxy "198.51.100.7" "t1").1.success = false ∧
    (send_email wTimedOut reqWithProxy "198.51.100.7" "t1").1.error =
      some "timed out" ∧
    (send_email wTimedOut reqWithProxy "198.51.100.7" "t1").1.logs.smtpError =
      some "timed out" ∧
    ∃ cp, (send_email wTimedOut reqWithProxy "198.51.100.7" "t1").2 =
      [SmtpAction.connectA cp 20] :=
  send_email_timeout_passthrough wTimedOut reqWithProxy "198.51.100.7" "t1"
    "timed out" rfl

/-- C3: when a proxy is configured (non-empty host) and the egress-IP
resolution fails or raises, the failure is non-fatal: the trail records the
proxy error, `fallbackToDirect=true` and `connectionType="direct"`, and the
job proceeds to attempt the SMTP session over a direct transport (the
connect action carries no proxy config). -/
theorem send_email_proxy_failure_fallback (w : NetWorld) (req : EmailRequest)
    (ch ts : String) (p : ProxyConfig) (e : String)
    (hp : req.proxyConfig = some p) (hh : p.host ≠ "")
    (hf : w.proxyIp = .failed e ∨ w.proxyIp = .raised e) :
    (send_email w req ch ts).1.logs.proxyError = some e ∧
    (send_email w req ch ts).1.logs.fallbackToDirect = some true ∧
    (send_email w req ch ts).1.logs.connectionType = some "direct" ∧
    (send_email w req ch ts).2.head? = some (SmtpAction.connectA none 20) := by
  have hpp : proxyPhase w req (initialLog req ch ts) =
      ({ (initialLog req ch ts) with proxyError := some e,
                                     fallbackToDirect := some true,
                                     connectionType := some "direct" },
       false) := by
    rcases hf with hf | hf
    · exact proxyPhase_failed w req _ p e hp hh hf
    · exact proxyPhase_raised w req _ p e hp hh hf
  rw [send_email_eq, hpp]
  simp only [if_neg Bool.false_ne_true]
  refine ⟨?_, ?_, ?_, smtpPhase_head _ _ _ _ _⟩
  · rw [(smtpPhase_frame _ _ _ _ _).2.1]
  · rw [(smtpPhase_frame _ _ _ _ _).2.2.1]
  · rw [(smtpPhase_frame _ _ _ _ _).1]

/-- C3 witness: concrete proxied request whose proxy-IP probe fails. -/
theorem send_email_proxy_failure_fallback_witness :
    (send_email wProxyFail reqWithProxy "198.51.100.7" "t2").1.logs.proxyError =
      some "Could not determine proxy IP using any method" ∧
    (send_email wProxyFail reqWithProxy "198.51.100.7" "t2").1.logs.fallbackToDirect =
      some true ∧
    (send_email wProxyFail reqWithProxy "198.51.100.7" "t2").1.logs.connectionType =
      some "direct" ∧
    (send_email wProxyFail reqWithProxy "198.51.100.7" "t2").2.head? =
      some (SmtpAction.connectA none 20) :=
  send_email_proxy_failure_fallback wProxyFail reqWithProxy "198.51.100.7" "t2"
    proxyEx "Could not determine proxy IP using any method" rfl
    (by decide) (Or.inl rfl)

/-- C4: with no proxy configured the trail records
`connectionType="direct"` and `noProxyConfigured=true`, and every
proxy-related field stays unpopulated (absent keys, `None` sub-fields,
`hasAuth=false`). -/
theorem send_email_no_proxy_direct (w : NetWorld) (req : EmailRequest)
    (ch ts : String) (h : req.proxyConfig = none) :
    (send_email w req ch ts).1.logs.connectionType = some "direct" ∧
    (send_email w req ch ts).1.logs.noProxyConfigured = some true ∧
    (send_email w req ch ts).1.logs.proxyUsed = none ∧
    (send_email w req ch ts).1.logs.afterProxyIp = none ∧
    (send_email w req ch ts).1.logs.proxyMethodsUsed = none ∧
    (send_email w req ch ts).1.logs.proxyError = none ∧
    (send_email w req ch ts).1.logs.fallbackToDirect = none ∧
    (send_email w req ch ts).1.logs.proxyCfgHost = none ∧
    (send_email w req ch ts).1.logs.proxyCfgPort = none ∧
    (send_email w req ch ts).1.logs.proxyCfgHasAuth = false := by
  rw [send_email_eq, proxyPhase_none w req _ h]
  simp only [if_neg Bool.false_ne_true]
  obtain ⟨h1, h2, h3, h4, h5, h6, h7, h8, h9, h10⟩ := smtpPhase_frame w req
    ({ (initialLog req ch ts) with noProxyConfigured := some true,
                                   connectionType := some "direct" })
    (messageIdOf w req) none
  rw [h1, h2, h3, h4, h5, h6, h7, h8, h9, h10]
  simp [initialLog, h]

/-- C4 witness: concrete proxyless request. -/
theorem send_email_no_proxy_direct_witness :
    (send_email wAllOk reqNoProxy "198.51.100.7" "t3").1.logs.connectionType =
      some "direct" ∧
    (send_email wAllOk reqNoProxy "198.51.100.7" "t3").1.logs.noProxyConfigured =
      some true ∧
    (send_email wAllOk reqNoProxy "198.51.100.7" "t3").1.logs.proxyUsed = none ∧
    (send_email wAllOk reqNoProxy "198.51.100.7" "t3").1.logs.afterProxyIp = none ∧
    (send_email wAllOk reqNoProxy "198.51.100.7" "t3").1.logs.proxyMethodsUsed = none ∧
    (send_email wAllOk reqNoProxy "198.51.100.7" "t3").1.logs.proxyError = none ∧
    (send_email wAllOk reqNoProxy "198.51.100.7" "t3").1.logs.fallbackToDirect = none ∧
    (send_email wAllOk reqNoProxy "198.51.100.7" "t3").1.logs.proxyCfgHost = none ∧
    (send_email wAllOk reqNoProxy "198.51.100.7" "t3").1.logs.proxyCfgPort = none ∧
    (send_email wAllOk reqNoProxy "198.51.100.7" "t3").1.logs.proxyCfgHasAuth = false :=
  send_email_no_proxy_direct wAllOk reqNoProxy "198.51.100.7" "t3" rfl

/-- C5: the message identifier is generated once from the uuid and the SMTP
host as `<uuid>@<smtpConfig.host>` (hence non-empty and containing the
target host), and it is present in the result exactly when the send
succeeded. -/
theorem send_email_messageId_iff_success (w : NetWorld) (req : EmailRequest)
    (ch ts : String) :
    (send_email w req ch ts).1.messageId =
      (if (send_email w req ch ts).1.success = true
       then some (messageIdOf w req) else none) ∧
    messageIdOf w req = "<" ++ w.uuid ++ "@" ++ req.smtpConfig.host ++ ">" ∧
    (∃ pre post, messageIdOf w req = pre ++ req.smtpConfig.host ++ post) ∧
    messageIdOf w req ≠ "" := by
  refine ⟨?_, rfl, ⟨"<" ++ w.uuid ++ "@", ">", rfl⟩, ?_⟩
  · rw [send_email_eq]
    exact smtpPhase_messageId _ _ _ _ _
  · intro hEq
    have hl := congrArg String.length hEq
    simp [messageIdOf, String.length_append] at hl
    exact absurd hl.1.1.1.1 (by decide)

/-- C5 witness: concrete successful run carrying the formatted id. -/
theorem send_email_messageId_iff_success_witness :
    (send_email wAllOk reqNoProxy "198.51.100.7" "t4").1.messageId =
      (if (send_email wAllOk reqNoProxy "198.51.100.7" "t4").1.success = true
       then some (messageIdOf wAllOk reqNoProxy) else none) ∧
    messageIdOf wAllOk reqNoProxy =
      "<" ++ wAllOk.uuid ++ "@" ++ reqNoProxy.smtpConfig.host ++ ">" ∧
    (∃ pre post, messageIdOf wAllOk reqNoProxy =
      pre ++ reqNoProxy.smtpConfig.host ++ post) ∧
    messageIdOf wAllOk reqNoProxy ≠ "" :=
  send_email_messageId_iff_success wAllOk reqNoProxy "198.51.100.7" "t4"

/-- C6: a failed login yields `success:false` with the auth rejection text
as the error and in the trail, no message id, and no SENDMAIL is attempted
after the failed authentication. -/
theorem send_email_auth_failure_aborts (w : NetWorld) (req : EmailRequest)
    (ch ts e : String) (hc : w.connect = .ok) (h1 : w.ehlo1 = .ok)
    (htls : req.smtpConfig.secure = true → req.smtpConfig.port = 587 →
      w.starttls = .ok ∧ w.ehlo2 = .ok)
    (hl : w.login = .err e) :
    (send_email w req ch ts).1.success = false ∧
    (send_email w req ch ts).1.error = some e ∧
    (send_email w req ch ts).1.logs.smtpError = some e ∧
    (send_email w req ch ts).1.messageId = none ∧
    SmtpAction.sendmailA ∉ (send_email w req ch ts).2 := by
  rw [send_email_eq]
  exact smtpPhase_auth_abort w req _ _ _ e hc h1 htls hl

/-- C6 witness: concrete run with rejected credentials. -/
theorem send_email_auth_failure_aborts_witness :
    (send_email wAuthFail reqNoProxy "198.51.100.7" "t5").1.success = false ∧
    (send_email wAuthFail reqNoProxy "198.51.100.7" "t5").1.error =
      some "535 authentication failed" ∧
    (send_email wAuthFail reqNoProxy "198.51.100.7" "t5").1.logs.smtpError =
      some "535 authentication failed" ∧
    (send_email wAuthFail reqNoProxy "198.51.100.7" "t5").1.messageId = none ∧
    SmtpAction.sendmailA ∉ (send_email wAuthFail reqNoProxy "198.51.100.7" "t5").2 :=
  send_email_auth_failure_aborts wAuthFail reqNoProxy "198.51.100.7" "t5"
    "535 authentication failed" rfl rfl (fun _ _ => ⟨rfl, rfl⟩) rfl

/-- C7: a failed NOOP liveness probe is non-fatal: the trail records
`connectionVerified=false` with the verify error detail and the session
still proceeds to the authentication stage. -/
theorem send_email_verify_failure_nonfatal (w : NetWorld) (req : EmailRequest)
    (ch ts v : String) (hc : w.connect = .ok) (h1 : w.ehlo1 = .ok)
    (htls : req.smtpConfig.secure = true → req.smtpConfig.port = 587 →
      w.starttls = .ok ∧ w.ehlo2 = .ok)
    (hn : w.noop = .err v) :
    (send_email w req ch ts).1.logs.connectionVerified = some false ∧
    (send_email w req ch ts).1.logs.verifyError = some v ∧
    SmtpAction.loginA ∈ (send_email w req ch ts).2 := by
  rw [send_email_eq]
  exact smtpPhase_verify_nonfatal w req _ _ _ v hc h1 htls hn

/-- C7 witness: concrete run whose NOOP fails; the job still succeeds. -/
theorem send_email_verify_failure_nonfatal_witness :
    (send_email wNoopFail reqNoProxy "198.51.100.7" "t6").1.logs.connectionVerified =
      some false ∧
    (send_email wNoopFail reqNoProxy "198.51.100.7" "t6").1.logs.verifyError =
      some "451 noop rejected" ∧
    SmtpAction.loginA ∈ (send_email wNoopFail reqNoProxy "198.51.100.7" "t6").2 :=
  send_email_verify_failure_nonfatal wNoopFail reqNoProxy "198.51.100.7" "t6"
    "451 noop rejected" rfl rfl (fun _ _ => ⟨rfl, rfl⟩) rfl

/-- C8: whenever the transport was opened, QUIT is issued on every exit
path; the QUIT outcome is never consulted, so its failure after a
successful send is swallowed and the result still reports success. -/
theorem send_email_quit_on_exit (w : NetWorld) (req : EmailRequest)
    (ch ts : String) (hc : w.connect = .ok) :
    SmtpAction.quitA ∈ (send_email w req ch ts).2 ∧
    (∀ q, send_email { w with quit := q } req ch ts =
      send_email w req ch ts) ∧
    ((send_email w req ch ts).1.success = true →
      ∀ e, (send_email { w with quit := StageResult.err e } req ch ts).1.success
        = true) := by
  have hq : ∀ q, send_email { w with quit := q } req ch ts =
      send_email w req ch ts := by
    intro q
    rw [send_email_eq, send_email_eq]
    exact smtpPhase_quit_indep w req _ _ _ q
  refine ⟨?_, hq, ?_⟩
  · rw [send_email_eq]
    exact smtpPhase_quit_mem w req _ _ _ hc
  · intro hs e
    rw [hq (StageResult.err e)]
    exact hs

/-- C8 witness: concrete run whose QUIT fails after a successful send. -/
theorem send_email_quit_on_exit_witness :
    SmtpAction.quitA ∈ (send_email wAllOk reqNoProxy "198.51.100.7" "t7").2 ∧
    send_email { wAllOk with quit := StageResult.err "quit lost" } reqNoProxy
      "198.51.100.7" "t7" = send_email wAllOk reqNoProxy "198.51.100.7" "t7" ∧
    (send_email { wAllOk with quit := StageResult.err "quit lost" } reqNoProxy
      "198.51.100.7" "t7").1.success = true := by
  obtain ⟨h1, h2, h3⟩ := send_email_quit_on_exit wAllOk reqNoProxy
    "198.51.100.7" "t7" rfl
  exact ⟨h1, h2 _, h3 rfl "quit lost"⟩

/-- An initial process state in which a default proxy is already set. -/
def gPreset : GlobalSocketState :=
  { defaultProxy := some { host := "192.0.2.9", port := 9050,
                           username := none, password := none },
    socketFactory := .plain }

/-- C9 counterexample: proxy configuration is not instantiated per job — it
is applied by mutating the process-wide socket state.  At a concrete input,
entering `proxy_context` changes the shared state (a concurrent job would
observe the socks factory and this default proxy), and after the
operation the default proxy is cleared to `None` rather than restored to
its original value. -/
theorem proxy_context_global_mutation_counterexample :
    proxy_context_enter gPreset (some proxyEx) ≠ gPreset ∧
    (proxy_context_enter gPreset (some proxyEx)).defaultProxy = some proxyEx ∧
    (proxy_context_enter gPreset (some proxyEx)).socketFactory =
      SocketFactory.socksFactory ∧
    proxy_context_run gPreset (some proxyEx) id ≠ gPreset := by
  refine ⟨by decide, rfl, rfl, by decide⟩

/-- C9 (amended): `proxy_context` applies proxy settings by temporarily
mutating the process-wide socket state; its `finally` runs on normal and
exceptional exit alike and — whatever the body did to the state — restores
`socket.socket` to the value captured on entry and clears the default proxy
to `None` (equal to its original value only when none was set). -/
theorem proxy_context_run_restores (g : GlobalSocketState)
    (pc : Option ProxyConfig) (body : GlobalSocketState → GlobalSocketState)
    (p : ProxyConfig) :
    proxy_context_run g pc body =
      { defaultProxy := none, socketFactory := g.socketFactory } ∧
    proxy_context_enter g (some p) =
      { defaultProxy := some p, socketFactory := SocketFactory.socksFactory } ∧
    proxy_context_enter g none = g :=
  ⟨rfl, rfl, rfl⟩

/-- C10: a present proxy config whose host is the empty string is falsy in
Python, so the job takes the no-proxy branch: the proxy-IP probe outcome is
never consulted, the trail records `noProxyConfigured=true` and
`connectionType="direct"`, and the session connects without a proxy. -/
theorem send_email_empty_proxy_host_as_no_proxy (w : NetWorld)
    (req : EmailRequest) (ch ts : String) (p : ProxyConfig)
    (hp : req.proxyConfig = some p) (hh : p.host = "") :
    (send_email w req ch ts).1.logs.noProxyConfigured = some true ∧
    (send_email w req ch ts).1.logs.connectionType = some "direct" ∧
    (∀ pr, send_email { w with proxyIp := pr } req ch ts =
      send_email w req ch ts) ∧
    (send_email w req ch ts).2.head? = some (SmtpAction.connectA none 20) := by
  have hpp : ∀ w0 : NetWorld, proxyPhase w0 req (initialLog req ch ts) =
      ({ (initialLog req ch ts) with noProxyConfigured := some true,
                                     connectionType := some "direct" },
       false) := fun w0 => proxyPhase_emptyHost w0 req _ p hp hh
  refine ⟨?_, ?_, ?_, ?_⟩
  · rw [send_email_eq, hpp w]
    simp only [if_neg Bool.false_ne_true]
    rw [(smtpPhase_frame _ _ _ _ _).2.2.2.1]
  · rw [send_email_eq, hpp w]
    simp only [if_neg Bool.false_ne_true]
    rw [(smtpPhase_frame _ _ _ _ _).1]
  · intro pr
    rw [send_email_eq, send_email_eq, hpp w, hpp { w with proxyIp := pr }]
    simp only [if_neg Bool.false_ne_true]
    exact smtpPhase_proxyIp_indep w req _ _ _ pr
  · rw [send_email_eq, hpp w]
    simp only [if_neg Bool.false_ne_true]
    exact smtpPhase_head _ _ _ _ _

/-- C10 witness: concrete request with `proxyConfig.host = ""`. -/
theorem send_email_empty_proxy_host_as_no_proxy_witness :
    (send_email wAllOk reqEmptyProxyHost "198.51.100.7" "t8").1.logs.noProxyConfigured =
      some true ∧
    (send_email wAllOk reqEmptyProxyHost "198.51.100.7" "t8").1.logs.connectionType =
      some "direct" ∧
    send_email { wAllOk with proxyIp := ProxyIpResult.raised "boom" }
      reqEmptyProxyHost "198.51.100.7" "t8" =
      send_email wAllOk reqEmptyProxyHost "198.51.100.7" "t8" ∧
    (send_email wAllOk reqEmptyProxyHost "198.51.100.7" "t8").2.head? =
      some (SmtpAction.connectA none 20) := by
  obtain ⟨h1, h2, h3, h4⟩ := send_email_empty_proxy_host_as_no_proxy wAllOk
    reqEmptyProxyHost "198.51.100.7" "t8" { proxyEx with host := "" } rfl rfl
  exact ⟨h1, h2, h3 _, h4⟩
